import Mathlib

/-!
Verification of the pattern/aspect-ratio/length core of librsvg's Rust port.

Shallow embedding of `src/rust/src/aspect_ratio.rs`, `src/rust/src/length.rs`
and `src/rust/src/pattern.rs`.  Rust `f64` values are modelled as exact
rationals (`ℚ`): every arithmetic operation the embedded code performs
(addition, multiplication, division by constants, `min`/`max`) is the exact
counterpart of the floating-point operation in the source, and all concrete
inputs used below are exactly representable.  Rust `Option<T>` becomes
`Option T`, `Result<T, E>` becomes `Except E T`, and a possibly
non-terminating `while` loop becomes a fuel-indexed recursion where `none`
means "the loop has not exited within the given number of iterations".
-/

set_option maxRecDepth 4096

/-- Fit mode of a `preserveAspectRatio` value (aspect_ratio.rs, `FitMode`). -/
inductive FitMode where
  | Meet
  | Slice
deriving DecidableEq, Repr, Fintype

/-- The nine alignment modes (aspect_ratio.rs, `AlignMode`). -/
inductive AlignMode where
  | XminYmin
  | XmidYmin
  | XmaxYmin
  | XminYmid
  | XmidYmid
  | XmaxYmid
  | XminYmax
  | XmidYmax
  | XmaxYmax
deriving DecidableEq, Repr, Fintype

/-- Alignment policy (aspect_ratio.rs, `Align`). -/
inductive Align where
  | None
  | Aligned (align : AlignMode) (fit : FitMode)
deriving DecidableEq, Repr, Fintype

/-- A parsed `preserveAspectRatio` value (aspect_ratio.rs, `AspectRatio`). -/
structure AspectRatio where
  defer : Bool
  align : Align
deriving DecidableEq, Repr, Fintype

/-- One-dimensional alignment selector (aspect_ratio.rs, `Align1D`). -/
inductive Align1D where
  | Min
  | Mid
  | Max
deriving DecidableEq, Repr

/-- Embeds `align_1d` from aspect_ratio.rs. -/
def align_1d (a : Align1D) (dest_pos : ℚ) (dest_size : ℚ) (obj_size : ℚ) : ℚ :=
  match a with
  | Align1D.Min => dest_pos
  | Align1D.Mid => dest_pos + (dest_size - obj_size) / 2
  | Align1D.Max => dest_pos + dest_size - obj_size

/-- Default `Align` value (aspect_ratio.rs, `impl Default for Align`). -/
def alignDefault : Align := Align.Aligned AlignMode.XmidYmid FitMode.Meet

/-- Default `AspectRatio` value (aspect_ratio.rs, `impl Default for AspectRatio`). -/
def aspectRatioDefault : AspectRatio := { defer := false, align := alignDefault }

/-- Embeds `AspectRatio::compute` from aspect_ratio.rs. -/
def AspectRatio.compute (ar : AspectRatio)
    (object_width object_height dest_x dest_y dest_width dest_height : ℚ) :
    ℚ × ℚ × ℚ × ℚ :=
  match ar.align with
  | Align.None => (dest_x, dest_y, dest_width, dest_height)
  | Align.Aligned align fit =>
    let w_factor := dest_width / object_width
    let h_factor := dest_height / object_height
    let factor : ℚ :=
      match fit with
      | FitMode.Meet => min w_factor h_factor
      | FitMode.Slice => max w_factor h_factor
    let w := object_width * factor
    let h := object_height * factor
    let xalign : Align1D :=
      match align with
      | AlignMode.XminYmin => Align1D.Min
      | AlignMode.XminYmid => Align1D.Min
      | AlignMode.XminYmax => Align1D.Min
      | AlignMode.XmidYmin => Align1D.Mid
      | AlignMode.XmidYmid => Align1D.Mid
      | AlignMode.XmidYmax => Align1D.Mid
      | AlignMode.XmaxYmin => Align1D.Max
      | AlignMode.XmaxYmid => Align1D.Max
      | AlignMode.XmaxYmax => Align1D.Max
    let yalign : Align1D :=
      match align with
      | AlignMode.XminYmin => Align1D.Min
      | AlignMode.XminYmid => Align1D.Mid
      | AlignMode.XminYmax => Align1D.Max
      | AlignMode.XmidYmin => Align1D.Min
      | AlignMode.XmidYmid => Align1D.Mid
      | AlignMode.XmidYmax => Align1D.Max
      | AlignMode.XmaxYmin => Align1D.Min
      | AlignMode.XmaxYmid => Align1D.Mid
      | AlignMode.XmaxYmax => Align1D.Max
    let xpos := align_1d xalign dest_x dest_width w
    let ypos := align_1d yalign dest_y dest_height h
    (xpos, ypos, w, h)

/-- Horizontal component of an alignment mode, as described by the spec
(the `Min`, `Mid` or `Max` in the `xMin`, `xMid`, `xMax` half of the name). -/
def specAxisX (a : AlignMode) : Align1D :=
  match a with
  | AlignMode.XminYmin => Align1D.Min
  | AlignMode.XminYmid => Align1D.Min
  | AlignMode.XminYmax => Align1D.Min
  | AlignMode.XmidYmin => Align1D.Mid
  | AlignMode.XmidYmid => Align1D.Mid
  | AlignMode.XmidYmax => Align1D.Mid
  | AlignMode.XmaxYmin => Align1D.Max
  | AlignMode.XmaxYmid => Align1D.Max
  | AlignMode.XmaxYmax => Align1D.Max

/-- Vertical component of an alignment mode, as described by the spec. -/
def specAxisY (a : AlignMode) : Align1D :=
  match a with
  | AlignMode.XminYmin => Align1D.Min
  | AlignMode.XmidYmin => Align1D.Min
  | AlignMode.XmaxYmin => Align1D.Min
  | AlignMode.XminYmid => Align1D.Mid
  | AlignMode.XmidYmid => Align1D.Mid
  | AlignMode.XmaxYmid => Align1D.Mid
  | AlignMode.XminYmax => Align1D.Max
  | AlignMode.XmidYmax => Align1D.Max
  | AlignMode.XmaxYmax => Align1D.Max

/-- One-axis positioning formula exactly as the spec words it:
`Min` keeps `dest_pos`, `Mid` centers, `Max` flushes to the far edge. -/
def specPosition (a : Align1D) (dest_pos dest_size obj_size : ℚ) : ℚ :=
  match a with
  | Align1D.Min => dest_pos
  | Align1D.Mid => dest_pos + (dest_size - obj_size) / 2
  | Align1D.Max => dest_pos + dest_size - obj_size

/-- The `compute` function as the spec describes it: `align = None` returns the
destination rectangle unchanged; otherwise `factor` is the min (Meet) or max
(Slice) of the two axis ratios, the fitted size is the object size scaled by
`factor`, and each axis is positioned independently. -/
def specCompute (ar : AspectRatio)
    (object_width object_height dest_x dest_y dest_width dest_height : ℚ) :
    ℚ × ℚ × ℚ × ℚ :=
  match ar.align with
  | Align.None => (dest_x, dest_y, dest_width, dest_height)
  | Align.Aligned align fit =>
    let factor : ℚ :=
      match fit with
      | FitMode.Meet => min (dest_width / object_width) (dest_height / object_height)
      | FitMode.Slice => max (dest_width / object_width) (dest_height / object_height)
    let w := object_width * factor
    let h := object_height * factor
    (specPosition (specAxisX align) dest_x dest_width w,
     specPosition (specAxisY align) dest_y dest_height h,
     w, h)

/-- Claim C5: for every `AspectRatio` and all inputs, `compute` returns the
destination rectangle unchanged when the alignment is `None`, and otherwise
scales by `factor = min` (Meet) or `max` (Slice) of the axis ratios and
positions each axis independently by the Min/Mid/Max formulas, exactly as the
spec's formula states. -/
theorem c5_compute_matches_spec_formula (ar : AspectRatio)
    (ow oh dx dy dw dh : ℚ) :
    ar.compute ow oh dx dy dw dh = specCompute ar ow oh dx dy dw dh := by
  obtain ⟨d, al⟩ := ar
  cases al with
  | None => rfl
  | Aligned a f => cases a <;> cases f <;> rfl

/-- Bit for xMinYMin (aspect_ratio.rs, `AspectRatioFlags::XMIN_YMIN`). -/
def XMIN_YMIN : Nat := 2 ^ 0

/-- Bit for xMidYMin (aspect_ratio.rs, `AspectRatioFlags::XMID_YMIN`). -/
def XMID_YMIN : Nat := 2 ^ 1

/-- Bit for xMaxYMin (aspect_ratio.rs, `AspectRatioFlags::XMAX_YMIN`). -/
def XMAX_YMIN : Nat := 2 ^ 2

/-- Bit for xMinYMid (aspect_ratio.rs, `AspectRatioFlags::XMIN_YMID`). -/
def XMIN_YMID : Nat := 2 ^ 3

/-- Bit for xMidYMid (aspect_ratio.rs, `AspectRatioFlags::XMID_YMID`). -/
def XMID_YMID : Nat := 2 ^ 4

/-- Bit for xMaxYMid (aspect_ratio.rs, `AspectRatioFlags::XMAX_YMID`). -/
def XMAX_YMID : Nat := 2 ^ 5

/-- Bit for xMinYMax (aspect_ratio.rs, `AspectRatioFlags::XMIN_YMAX`). -/
def XMIN_YMAX : Nat := 2 ^ 6

/-- Bit for xMidYMax (aspect_ratio.rs, `AspectRatioFlags::XMID_YMAX`). -/
def XMID_YMAX : Nat := 2 ^ 7

/-- Bit for xMaxYMax (aspect_ratio.rs, `AspectRatioFlags::XMAX_YMAX`). -/
def XMAX_YMAX : Nat := 2 ^ 8

/-- Bit for the Slice fit mode (aspect_ratio.rs, `AspectRatioFlags::SLICE`). -/
def SLICE : Nat := 2 ^ 30

/-- Bit for the defer flag (aspect_ratio.rs, `AspectRatioFlags::DEFER`). -/
def DEFER : Nat := 2 ^ 31

/-- Union of all defined flag bits, as the `bitflags!` macro computes it. -/
def allAspectRatioFlags : Nat :=
  XMIN_YMIN ||| XMID_YMIN ||| XMAX_YMIN ||| XMIN_YMID ||| XMID_YMID |||
  XMAX_YMID ||| XMIN_YMAX ||| XMID_YMAX ||| XMAX_YMAX ||| SLICE ||| DEFER

/-- Embeds bitflags' `AspectRatioFlags::from_bits`: `some` exactly when no
undefined bit is set. -/
def aspectRatioFlagsFromBits (v : Nat) : Option Nat :=
  if v &&& allAspectRatioFlags = v then some v else none

/-- Embeds bitflags' `contains` for a flag value: all bits of the flag are set. -/
def flagContains (v f : Nat) : Bool := v &&& f = f

/-- Embeds `AspectRatio::from_u32` from aspect_ratio.rs.  The Rust code calls
`.unwrap()` on the `from_bits` result, which panics on any undefined bit; the
panic is modelled as `none`.  The source computes the align mode together with
an `aligned` boolean whose `false` case yields `Align::None`; the if-chain
below is that same first-match-wins chain. -/
def AspectRatio.from_u32 (v : Nat) : Option AspectRatio :=
  match aspectRatioFlagsFromBits v with
  | none => none
  | some val =>
    let defer := flagContains val DEFER
    let fit : FitMode := if flagContains val SLICE then FitMode.Slice else FitMode.Meet
    if flagContains val XMIN_YMIN then some ⟨defer, Align.Aligned AlignMode.XminYmin fit⟩
    else if flagContains val XMID_YMIN then some ⟨defer, Align.Aligned AlignMode.XmidYmin fit⟩
    else if flagContains val XMAX_YMIN then some ⟨defer, Align.Aligned AlignMode.XmaxYmin fit⟩
    else if flagContains val XMIN_YMID then some ⟨defer, Align.Aligned AlignMode.XminYmid fit⟩
    else if flagContains val XMID_YMID then some ⟨defer, Align.Aligned AlignMode.XmidYmid fit⟩
    else if flagContains val XMAX_YMID then some ⟨defer, Align.Aligned AlignMode.XmaxYmid fit⟩
    else if flagContains val XMIN_YMAX then some ⟨defer, Align.Aligned AlignMode.XminYmax fit⟩
    else if flagContains val XMID_YMAX then some ⟨defer, Align.Aligned AlignMode.XmidYmax fit⟩
    else if flagContains val XMAX_YMAX then some ⟨defer, Align.Aligned AlignMode.XmaxYmax fit⟩
    else some ⟨defer, Align.None⟩

/-- Embeds `AspectRatio::to_u32` from aspect_ratio.rs. -/
def AspectRatio.to_u32 (a : AspectRatio) : Nat :=
  let v0 : Nat := 0
  let v1 := if a.defer then v0 ||| DEFER else v0
  match a.align with
  | Align.None => v1
  | Align.Aligned align fit =>
    let v2 :=
      match align with
      | AlignMode.XminYmin => v1 ||| XMIN_YMIN
      | AlignMode.XmidYmin => v1 ||| XMID_YMIN
      | AlignMode.XmaxYmin => v1 ||| XMAX_YMIN
      | AlignMode.XminYmid => v1 ||| XMIN_YMID
      | AlignMode.XmidYmid => v1 ||| XMID_YMID
      | AlignMode.XmaxYmid => v1 ||| XMAX_YMID
      | AlignMode.XminYmax => v1 ||| XMIN_YMAX
      | AlignMode.XmidYmax => v1 ||| XMID_YMAX
      | AlignMode.XmaxYmax => v1 ||| XMAX_YMAX
    match fit with
    | FitMode.Meet => v2
    | FitMode.Slice => v2 ||| SLICE

/-- Helper: a flag that is a single two-power is not contained when the
corresponding bit of the value is clear. -/
theorem flagContains_two_pow_eq_false {v i : Nat} (h : v.testBit i = false) :
    flagContains v (2 ^ i) = false := by
  have hz : v &&& 2 ^ i = 0 := by
    rw [Nat.and_two_pow, h, Bool.toNat_false, zero_mul]
  have hne : (2 : Nat) ^ i ≠ 0 := pow_ne_zero i two_ne_zero
  unfold flagContains
  rw [hz]
  exact decide_eq_false fun hc => hne hc.symm

/-- Claim C6: the packed 32-bit encoding round-trips exactly on every valid
`AspectRatio`, and any value accepted by `from_u32` in which none of bits 0-8
is set decodes to `Align.None`. -/
theorem c6_u32_roundtrip_and_none :
    (∀ a : AspectRatio, AspectRatio.from_u32 a.to_u32 = some a) ∧
    (∀ v : Nat, ∀ r : AspectRatio, AspectRatio.from_u32 v = some r →
      (∀ i : Nat, i < 9 → v.testBit i = false) → r.align = Align.None) := by
  constructor
  · decide
  · intro v r hv hbits
    have h0 := flagContains_two_pow_eq_false (hbits 0 (by norm_num))
    have h1 := flagContains_two_pow_eq_false (hbits 1 (by norm_num))
    have h2 := flagContains_two_pow_eq_false (hbits 2 (by norm_num))
    have h3 := flagContains_two_pow_eq_false (hbits 3 (by norm_num))
    have h4 := flagContains_two_pow_eq_false (hbits 4 (by norm_num))
    have h5 := flagContains_two_pow_eq_false (hbits 5 (by norm_num))
    have h6 := flagContains_two_pow_eq_false (hbits 6 (by norm_num))
    have h7 := flagContains_two_pow_eq_false (hbits 7 (by norm_num))
    have h8 := flagContains_two_pow_eq_false (hbits 8 (by norm_num))
    unfold AspectRatio.from_u32 at hv
    unfold aspectRatioFlagsFromBits at hv
    by_cases hmask : v &&& allAspectRatioFlags = v
    · rw [if_pos hmask] at hv
      simp only [XMIN_YMIN, XMID_YMIN, XMAX_YMIN, XMIN_YMID, XMID_YMID,
        XMAX_YMID, XMIN_YMAX, XMID_YMAX, XMAX_YMAX] at hv
      simp only [h0, h1, h2, h3, h4, h5, h6, h7, h8] at hv
      simp only [Bool.false_eq_true, if_false, Option.some.injEq] at hv
      rw [← hv]
    · simp [hmask] at hv

/-- Witness for claim C6: the round-trip at a concrete value, and the
`Align.None` decoding at the concrete input `2 ^ 31` (defer bit only). -/
theorem c6_u32_roundtrip_and_none_witness :
    AspectRatio.from_u32 (AspectRatio.mk true Align.None).to_u32 =
      some (AspectRatio.mk true Align.None) ∧
    (AspectRatio.mk true Align.None).align = Align.None :=
  ⟨c6_u32_roundtrip_and_none.1 (AspectRatio.mk true Align.None),
   c6_u32_roundtrip_and_none.2 (2 ^ 31) (AspectRatio.mk true Align.None)
     (by decide) (by decide)⟩

/-- Claim C10: `from_u32` is not total on u32: the input `2 ^ 9`, which has a
bit set outside positions 0-8, 30 and 31, makes the bitflags
`from_bits(...).unwrap()` call panic (modelled as `none`) instead of
returning an `AspectRatio`. -/
theorem c10_from_u32_partial_on_unknown_bits :
    AspectRatio.from_u32 (2 ^ 9) = none := by decide

/-- Attribute-level error kind (error.rs is outside src/; modelled from the
spec, §7: a parse/grammar error carries a message, a value-range error
carries a message). -/
inductive AttributeError where
  | Parse (msg : String)
  | Value (msg : String)
deriving DecidableEq, Repr

/-- Embeds `parse_align_mode` from aspect_ratio.rs. -/
def parse_align_mode (s : String) : Option Align :=
  if s = "none" then some Align.None
  else if s = "xMinYMin" then some (Align.Aligned AlignMode.XminYmin FitMode.Meet)
  else if s = "xMidYMin" then some (Align.Aligned AlignMode.XmidYmin FitMode.Meet)
  else if s = "xMaxYMin" then some (Align.Aligned AlignMode.XmaxYmin FitMode.Meet)
  else if s = "xMinYMid" then some (Align.Aligned AlignMode.XminYmid FitMode.Meet)
  else if s = "xMidYMid" then some (Align.Aligned AlignMode.XmidYmid FitMode.Meet)
  else if s = "xMaxYMid" then some (Align.Aligned AlignMode.XmaxYmid FitMode.Meet)
  else if s = "xMinYMax" then some (Align.Aligned AlignMode.XminYmax FitMode.Meet)
  else if s = "xMidYMax" then some (Align.Aligned AlignMode.XmidYmax FitMode.Meet)
  else if s = "xMaxYMax" then some (Align.Aligned AlignMode.XmaxYmax FitMode.Meet)
  else none

/-- Embeds `parse_fit_mode` from aspect_ratio.rs. -/
def parse_fit_mode (s : String) : Option FitMode :=
  if s = "meet" then some FitMode.Meet
  else if s = "slice" then some FitMode.Slice
  else none

/-- Parser states (aspect_ratio.rs, `ParseState`). -/
inductive ParseState where
  | Defer
  | Align
  | Fit
  | Finished
deriving DecidableEq, Repr

/-- The grammar error built by `make_err` in aspect_ratio.rs. -/
def aspectRatioErr : AttributeError :=
  AttributeError.Parse "expected \"[defer] <align> [meet | slice]\""

/-- Embeds the token loop of `impl Parse for AspectRatio` (aspect_ratio.rs):
the four-state machine consumes whitespace-separated tokens left to right,
and at end of input states `Fit` and `Finished` succeed while `Defer` and
`Align` fail; the accepted value combines the final defer flag, align mode
and fit mode exactly as the source's final expression does. -/
def aspectParseLoop (state : ParseState) (defer : Bool) (align : Align)
    (fit_mode : FitMode) : List String → Except AttributeError AspectRatio
  | [] =>
    match state with
    | ParseState.Fit | ParseState.Finished =>
      Except.ok
        { defer := defer,
          align :=
            match align with
            | Align.None => Align.None
            | Align.Aligned a _ => Align.Aligned a fit_mode }
    | _ => Except.error aspectRatioErr
  | v :: rest =>
    match state with
    | ParseState.Defer =>
      if v = "defer" then
        aspectParseLoop ParseState.Align true align fit_mode rest
      else
        match parse_align_mode v with
        | some parsed_align => aspectParseLoop ParseState.Fit defer parsed_align fit_mode rest
        | none => Except.error aspectRatioErr
    | ParseState.Align =>
      match parse_align_mode v with
      | some parsed_align => aspectParseLoop ParseState.Fit defer parsed_align fit_mode rest
      | none => Except.error aspectRatioErr
    | ParseState.Fit =>
      match parse_fit_mode v with
      | some parsed_fit => aspectParseLoop ParseState.Finished defer align parsed_fit rest
      | none => Except.error aspectRatioErr
    | ParseState.Finished => Except.error aspectRatioErr

/-- Character-level worker for whitespace splitting: collects the current
token in `acc` (reversed) and emits it at each whitespace run or at the end. -/
def splitWSAux : List Char → List Char → List String
  | [], acc => if acc = [] then [] else [String.mk acc.reverse]
  | c :: cs, acc =>
    if c.isWhitespace then
      if acc = [] then splitWSAux cs [] else String.mk acc.reverse :: splitWSAux cs []
    else splitWSAux cs (c :: acc)

/-- Splits a string on whitespace discarding empty pieces, as Rust's
`str::split_whitespace` does (standard-library behaviour; all inputs below
use plain spaces). -/
def splitWhitespace (s : String) : List String :=
  splitWSAux s.toList []

/-- Embeds `AspectRatio::parse` from aspect_ratio.rs: run the state machine
over the whitespace-separated tokens starting in state `Defer` with the
default align value and `Meet`. -/
def AspectRatio.parse (s : String) : Except AttributeError AspectRatio :=
  aspectParseLoop ParseState.Defer false alignDefault FitMode.Meet (splitWhitespace s)

/-- True when an `Except` holds a success value. -/
def exceptIsOk {ε α : Type} (e : Except ε α) : Bool :=
  match e with
  | Except.ok _ => true
  | Except.error _ => false

/-- True when the token is an align token of the grammar. -/
def isAlignTok (s : String) : Bool := (parse_align_mode s).isSome

/-- True when the token is a fit token of the grammar. -/
def isFitTok (s : String) : Bool := (parse_fit_mode s).isSome

/-- A token list of the shape `<align> [meet | slice]`. -/
def alignFitOk (toks : List String) : Bool :=
  match toks with
  | [a] => isAlignTok a
  | [a, f] => isAlignTok a && isFitTok f
  | _ => false

/-- The grammar `[defer] <align> [meet | slice]` of the spec, as a predicate
on token lists: an optional leading `defer` token followed by exactly one
align token and at most one fit token. -/
def grammarOk (toks : List String) : Bool :=
  match toks with
  | [] => false
  | t :: rest => if t = "defer" then alignFitOk rest else alignFitOk toks

/-- Helper: from state `Finished` every further token fails, and end of input
succeeds. -/
theorem aspectParseLoop_finished (d : Bool) (al : Align) (f : FitMode) :
    ∀ toks, exceptIsOk (aspectParseLoop ParseState.Finished d al f toks) = toks.isEmpty := by
  intro toks
  cases toks with
  | nil => rfl
  | cons v rest => rfl

/-- Helper: from state `Fit` the loop succeeds exactly on the empty list or a
single fit token. -/
theorem aspectParseLoop_fit (d : Bool) (al : Align) (f : FitMode) :
    ∀ toks, exceptIsOk (aspectParseLoop ParseState.Fit d al f toks) =
      (toks.isEmpty || (toks.length = 1 && isFitTok (toks.headD ""))) := by
  intro toks
  match toks with
  | [] => rfl
  | v :: rest =>
    simp only [aspectParseLoop, isFitTok]
    cases hpf : parse_fit_mode v with
    | none => simp [exceptIsOk, hpf]
    | some pf =>
      simp only [hpf]
      rw [aspectParseLoop_finished]
      cases rest <;> simp [hpf]

/-- Helper: from state `Align` the loop succeeds exactly on
`<align> [meet | slice]`. -/
theorem aspectParseLoop_align (d : Bool) (al : Align) (f : FitMode) :
    ∀ toks, exceptIsOk (aspectParseLoop ParseState.Align d al f toks) = alignFitOk toks := by
  intro toks
  match toks with
  | [] => rfl
  | v :: rest =>
    simp only [aspectParseLoop]
    cases hpa : parse_align_mode v with
    | none =>
      simp only [exceptIsOk]
      match rest with
      | [] => simp [alignFitOk, isAlignTok, hpa]
      | [w] => simp [alignFitOk, isAlignTok, hpa]
      | w :: u :: more => simp [alignFitOk]
    | some pa =>
      rw [aspectParseLoop_fit]
      match rest with
      | [] => simp [alignFitOk, isAlignTok, hpa]
      | [w] => simp [alignFitOk, isAlignTok, hpa]
      | w :: u :: more => simp [alignFitOk]

/-- Helper: in state `Defer`, a non-`defer` first token is handled exactly as
in state `Align`. -/
theorem aspectParseLoop_defer_ne (d : Bool) (al : Align) (f : FitMode)
    (v : String) (rest : List String) (hv : ¬ (v = "defer")) :
    aspectParseLoop ParseState.Defer d al f (v :: rest) =
      aspectParseLoop ParseState.Align d al f (v :: rest) := by
  simp only [aspectParseLoop, if_neg hv]

/-- Claim C8: `AspectRatio::parse` succeeds exactly on token streams matching
`[defer] <align> [meet | slice]` — any unrecognized token, any token after
the fit token, or ending without an align token fails — and in particular
the seven listed inputs all fail with a grammar error. -/
theorem c8_aspect_ratio_parse_grammar :
    (∀ toks, exceptIsOk
        (aspectParseLoop ParseState.Defer false alignDefault FitMode.Meet toks) =
      grammarOk toks) ∧
    exceptIsOk (AspectRatio.parse "") = false ∧
    exceptIsOk (AspectRatio.parse "defer") = false ∧
    exceptIsOk (AspectRatio.parse "defer foo") = false ∧
    exceptIsOk (AspectRatio.parse "defer xmidymid") = false ∧
    exceptIsOk (AspectRatio.parse "xmidymid") = false ∧
    exceptIsOk (AspectRatio.parse "xMidYMid foo") = false ∧
    exceptIsOk (AspectRatio.parse "defer xMidYMid meet foo") = false := by
  refine ⟨?_, by decide, by decide, by decide, by decide, by decide, by decide, by decide⟩
  intro toks
  match toks with
  | [] => rfl
  | v :: rest =>
    by_cases hv : v = "defer"
    · subst hv
      have hstep :
          aspectParseLoop ParseState.Defer false alignDefault FitMode.Meet
            ("defer" :: rest) =
          aspectParseLoop ParseState.Align true alignDefault FitMode.Meet rest := by
        simp [aspectParseLoop]
      rw [hstep, aspectParseLoop_align]
      simp [grammarOk]
    · rw [aspectParseLoop_defer_ne _ _ _ _ _ hv, aspectParseLoop_align]
      simp [grammarOk, hv]

/-- Length units (length.rs, `LengthUnit`). -/
inductive LengthUnit where
  | Default
  | Percent
  | FontEm
  | FontEx
  | Inch
  | RelativeLarger
  | RelativeSmaller
deriving DecidableEq, Repr

/-- Axis hints for normalization (length.rs, `LengthDir`). -/
inductive LengthDir where
  | Horizontal
  | Vertical
  | Both
deriving DecidableEq, Repr

/-- A dimensioned length value (length.rs, `RsvgLength`). -/
structure RsvgLength where
  length : ℚ
  unit : LengthUnit
  dir : LengthDir
deriving DecidableEq, Repr

/-- Points per inch (length.rs, `POINTS_PER_INCH`). -/
def POINTS_PER_INCH : ℚ := 72

/-- Centimeters per inch, exactly 2.54 (length.rs, `CM_PER_INCH`). -/
def CM_PER_INCH : ℚ := 254 / 100

/-- Millimeters per inch, exactly 25.4 (length.rs, `MM_PER_INCH`). -/
def MM_PER_INCH : ℚ := 254 / 10

/-- Picas per inch (length.rs, `PICA_PER_INCH`). -/
def PICA_PER_INCH : ℚ := 6

/-- Embeds `compute_named_size` from length.rs: `12 * 1.2 ^ power / 72` for
the seven named sizes; the `unreachable!()` arm is modelled as `none`. -/
def compute_named_size (name : String) : Option ℚ :=
  if name = "xx-small" then some (12 * (5 / 6 : ℚ) ^ (3 : ℕ) / POINTS_PER_INCH)
  else if name = "x-small" then some (12 * (5 / 6 : ℚ) ^ (2 : ℕ) / POINTS_PER_INCH)
  else if name = "small" then some (12 * (5 / 6 : ℚ) ^ (1 : ℕ) / POINTS_PER_INCH)
  else if name = "medium" then some (12 / POINTS_PER_INCH)
  else if name = "large" then some (12 * (6 / 5 : ℚ) ^ (1 : ℕ) / POINTS_PER_INCH)
  else if name = "x-large" then some (12 * (6 / 5 : ℚ) ^ (2 : ℕ) / POINTS_PER_INCH)
  else if name = "xx-large" then some (12 * (6 / 5 : ℚ) ^ (3 : ℕ) / POINTS_PER_INCH)
  else none

/-- The grammar error built by `make_err` in length.rs. -/
def lengthErr : AttributeError :=
  AttributeError.Parse
    "expected length: number(\"em\" | \"ex\" | \"px\" | \"in\" | \"cm\" | \"mm\" | \"pt\" | \"pc\" | \"%\")?"

/-- CSS tokens relevant to length parsing.  Modelled from the spec: the
tokenizer lives in the external `cssparser` crate (not under src/); the
length parser in length.rs consumes exactly one token of these shapes and
then requires the input to be exhausted. -/
inductive CssToken where
  | Number (value : ℚ)
  | Percentage (unit_value : ℚ)
  | Dimension (value : ℚ) (unit : String)
  | Ident (name : String)
deriving DecidableEq, Repr

/-- Numeric value of a decimal digit character. -/
def digitVal (c : Char) : Nat := c.toNat - 48

/-- Value of a digit run, most significant first. -/
def digitsToNat (ds : List Char) : Nat :=
  ds.foldl (fun acc c => acc * 10 + digitVal c) 0

/-- Scans an unsigned CSS number (digits with an optional fractional part)
from the front of a character list, returning its exact value and the rest.
Modelled from the spec: this is the number scanner of the external
`cssparser` crate, restricted to the non-exponent forms the repository's
tests exercise. -/
def scanUnsigned (cs : List Char) : Option (ℚ × List Char) :=
  let ds := cs.takeWhile Char.isDigit
  let cs2 := cs.dropWhile Char.isDigit
  match cs2 with
  | '.' :: cs3 =>
    let fs := cs3.takeWhile Char.isDigit
    let cs4 := cs3.dropWhile Char.isDigit
    if ds.isEmpty && fs.isEmpty then none
    else some ((digitsToNat ds : ℚ) + (digitsToNat fs : ℚ) / (10 : ℚ) ^ fs.length, cs4)
  | _ => if ds.isEmpty then none else some ((digitsToNat ds : ℚ), cs2)

/-- Scans an optionally signed CSS number. -/
def scanNumber (cs : List Char) : Option (ℚ × List Char) :=
  match cs with
  | '-' :: rest => (scanUnsigned rest).map (fun p => (-p.1, p.2))
  | '+' :: rest => scanUnsigned rest
  | _ => scanUnsigned cs

/-- True for characters allowed in the identifier/unit tokens used here. -/
def isIdentChar (c : Char) : Bool := c.isAlpha || c = '-'

/-- Produces the single token covering the whole input, or `none` when the
input is empty, malformed, or has trailing garbage after the token.
Modelled from the spec: stands for `cssparser`'s `Parser::next` followed by
`expect_exhausted` in length.rs (both failures map to the same grammar
error in the source). -/
def tokenizeLength (s : String) : Option CssToken :=
  let cs := s.toList
  match scanNumber cs with
  | some (v, rest) =>
    if rest = [] then some (CssToken.Number v)
    else if rest = ['%'] then some (CssToken.Percentage (v / 100))
    else if rest.all isIdentChar then some (CssToken.Dimension v (String.mk rest))
    else none
  | none =>
    if cs ≠ [] && cs.all isIdentChar then some (CssToken.Ident s)
    else none

/-- Embeds the token match of `impl Parse for RsvgLength` (length.rs): maps
each token shape and unit suffix to an `RsvgLength`.  The original string is
passed along because the named-size arm calls `compute_named_size` on the
whole input string, exactly as the source does. -/
def lengthFromToken (tok : CssToken) (string : String) (dir : LengthDir) :
    Except AttributeError RsvgLength :=
  match tok with
  | CssToken.Number value => Except.ok ⟨value, LengthUnit.Default, dir⟩
  | CssToken.Percentage unit_value => Except.ok ⟨unit_value, LengthUnit.Percent, dir⟩
  | CssToken.Dimension value unit =>
    if unit = "em" then Except.ok ⟨value, LengthUnit.FontEm, dir⟩
    else if unit = "ex" then Except.ok ⟨value, LengthUnit.FontEx, dir⟩
    else if unit = "pt" then Except.ok ⟨value / POINTS_PER_INCH, LengthUnit.Inch, dir⟩
    else if unit = "in" then Except.ok ⟨value, LengthUnit.Inch, dir⟩
    else if unit = "cm" then Except.ok ⟨value / CM_PER_INCH, LengthUnit.Inch, dir⟩
    else if unit = "mm" then Except.ok ⟨value / MM_PER_INCH, LengthUnit.Inch, dir⟩
    else if unit = "pc" then Except.ok ⟨value / PICA_PER_INCH, LengthUnit.Inch, dir⟩
    else if unit = "px" then Except.ok ⟨value, LengthUnit.Default, dir⟩
    else Except.error lengthErr
  | CssToken.Ident name =>
    if name = "larger" then Except.ok ⟨0, LengthUnit.RelativeLarger, dir⟩
    else if name = "smaller" then Except.ok ⟨0, LengthUnit.RelativeSmaller, dir⟩
    else
      match compute_named_size string with
      | some v => Except.ok ⟨v, LengthUnit.Inch, dir⟩
      | none => Except.error lengthErr

/-- Embeds `RsvgLength::parse` from length.rs: tokenize, map the first token,
require the input exhausted (a tokenizer failure and trailing input both
yield the same grammar error). -/
def RsvgLength.parse (string : String) (dir : LengthDir) :
    Except AttributeError RsvgLength :=
  match tokenizeLength string with
  | some tok => lengthFromToken tok string dir
  | none => Except.error lengthErr

/-- Claim C7: the unit suffixes map as `em` to FontEm, `ex` to FontEx, `px`
or a bare number to Default, `in` to Inch unchanged, `pt` to Inch divided by
72, `cm` to Inch divided by 2.54, `mm` to Inch divided by 25.4 and `pc` to
Inch divided by 6; in particular `72pt` parses to `Inch 1` and `-254cm` to
`Inch (-100)`, while `8furlong` and the empty string fail with a grammar
error. -/
theorem c7_length_parse_unit_mapping :
    (∀ (v : ℚ) (s : String) (d : LengthDir),
      lengthFromToken (CssToken.Number v) s d =
        Except.ok ⟨v, LengthUnit.Default, d⟩) ∧
    (∀ (v : ℚ) (s : String) (d : LengthDir),
      lengthFromToken (CssToken.Dimension v "em") s d =
        Except.ok ⟨v, LengthUnit.FontEm, d⟩) ∧
    (∀ (v : ℚ) (s : String) (d : LengthDir),
      lengthFromToken (CssToken.Dimension v "ex") s d =
        Except.ok ⟨v, LengthUnit.FontEx, d⟩) ∧
    (∀ (v : ℚ) (s : String) (d : LengthDir),
      lengthFromToken (CssToken.Dimension v "px") s d =
        Except.ok ⟨v, LengthUnit.Default, d⟩) ∧
    (∀ (v : ℚ) (s : String) (d : LengthDir),
      lengthFromToken (CssToken.Dimension v "in") s d =
        Except.ok ⟨v, LengthUnit.Inch, d⟩) ∧
    (∀ (v : ℚ) (s : String) (d : LengthDir),
      lengthFromToken (CssToken.Dimension v "pt") s d =
        Except.ok ⟨v / POINTS_PER_INCH, LengthUnit.Inch, d⟩) ∧
    (∀ (v : ℚ) (s : String) (d : LengthDir),
      lengthFromToken (CssToken.Dimension v "cm") s d =
        Except.ok ⟨v / CM_PER_INCH, LengthUnit.Inch, d⟩) ∧
    (∀ (v : ℚ) (s : String) (d : LengthDir),
      lengthFromToken (CssToken.Dimension v "mm") s d =
        Except.ok ⟨v / MM_PER_INCH, LengthUnit.Inch, d⟩) ∧
    (∀ (v : ℚ) (s : String) (d : LengthDir),
      lengthFromToken (CssToken.Dimension v "pc") s d =
        Except.ok ⟨v / PICA_PER_INCH, LengthUnit.Inch, d⟩) ∧
    RsvgLength.parse "72pt" LengthDir.Both =
      Except.ok ⟨1, LengthUnit.Inch, LengthDir.Both⟩ ∧
    RsvgLength.parse "-254cm" LengthDir.Both =
      Except.ok ⟨-100, LengthUnit.Inch, LengthDir.Both⟩ ∧
    exceptIsOk (RsvgLength.parse "8furlong" LengthDir.Both) = false ∧
    exceptIsOk (RsvgLength.parse "" LengthDir.Both) = false := by
  refine ⟨fun v s d => rfl, fun v s d => rfl, fun v s d => rfl, fun v s d => rfl,
    fun v s d => rfl, fun v s d => rfl, fun v s d => rfl, fun v s d => rfl,
    fun v s d => rfl, ?_, ?_, rfl, rfl⟩
  · have ha : RsvgLength.parse "72pt" LengthDir.Both =
        Except.ok ⟨(72 : ℚ) / POINTS_PER_INCH, LengthUnit.Inch, LengthDir.Both⟩ := rfl
    have hb : (72 : ℚ) / POINTS_PER_INCH = 1 := by norm_num [POINTS_PER_INCH]
    rw [hb] at ha
    exact ha
  · have ha : RsvgLength.parse "-254cm" LengthDir.Both =
        Except.ok ⟨(-254 : ℚ) / CM_PER_INCH, LengthUnit.Inch, LengthDir.Both⟩ := rfl
    have hb : (-254 : ℚ) / CM_PER_INCH = -100 := by norm_num [CM_PER_INCH]
    rw [hb] at ha
    exact ha

/-- A 2x2-plus-translation affine matrix (cairo::Matrix as used by
pattern.rs; only carried as an opaque field value here). -/
structure CairoMatrix where
  xx : ℚ
  yx : ℚ
  xy : ℚ
  yy : ℚ
  x0 : ℚ
  y0 : ℚ
deriving DecidableEq, Repr

/-- The identity matrix (cairo::Matrix::identity). -/
def cairoMatrixIdentity : CairoMatrix := ⟨1, 0, 0, 1, 0, 0⟩

/-- A view box rectangle.  Modelled from the spec (viewbox.rs is not under
src/): a rectangle plus an `active` flag; `new_inactive` yields an inactive
zero rectangle. -/
structure RsvgViewBox where
  x : ℚ
  y : ℚ
  width : ℚ
  height : ℚ
  active : Bool
deriving DecidableEq, Repr

/-- Embeds `RsvgViewBox::new_inactive`. -/
def rsvgViewBoxNewInactive : RsvgViewBox := ⟨0, 0, 0, 0, false⟩

/-- The value of `RsvgLength::parse ("0", LengthDir::Horizontal)` used by
`resolve_from_defaults` for the four geometry fields. -/
def lengthZeroHorizontal : RsvgLength := ⟨0, LengthUnit.Default, LengthDir.Horizontal⟩

/-- Sanity lemma: the default length really is what parsing `0` produces. -/
theorem lengthZeroHorizontal_eq_parse :
    RsvgLength.parse "0" LengthDir.Horizontal = Except.ok lengthZeroHorizontal := rfl

/-- Embeds the `Pattern` struct of pattern.rs: the sparse attribute set of a
pattern element.  The raw C node pointer `c_node` is modelled as an opaque
numeric handle; the external `rsvg_pattern_node_has_children` call on it is
modelled as an explicit function argument `hc` below. -/
structure Pattern where
  obj_bbox : Option Bool
  obj_cbbox : Option Bool
  vbox : Option RsvgViewBox
  preserve_aspect_ratio : Option AspectRatio
  affine : Option CairoMatrix
  fallback : Option String
  x : Option RsvgLength
  y : Option RsvgLength
  width : Option RsvgLength
  height : Option RsvgLength
  c_node : Nat
deriving DecidableEq, Repr

/-- Embeds `Pattern::is_resolved` (pattern.rs): every optional field set and
the node has children (`hc` stands for the external
`pattern_node_has_children`). -/
def Pattern.is_resolved (p : Pattern) (hc : Nat → Bool) : Bool :=
  p.obj_bbox.isSome && p.obj_cbbox.isSome && p.vbox.isSome &&
  p.preserve_aspect_ratio.isSome && p.affine.isSome &&
  p.x.isSome && p.y.isSome && p.width.isSome && p.height.isSome &&
  hc p.c_node

/-- Embeds `Pattern::resolve_from_defaults` (pattern.rs): fill every unset
field with the spec default, clear `fallback`, leave `c_node` alone (the
children are deliberately not resolved there). -/
def Pattern.resolve_from_defaults (p : Pattern) : Pattern :=
  { obj_bbox := some (p.obj_bbox.getD true),
    obj_cbbox := some (p.obj_cbbox.getD false),
    vbox := some (p.vbox.getD rsvgViewBoxNewInactive),
    preserve_aspect_ratio := some (p.preserve_aspect_ratio.getD aspectRatioDefault),
    affine := some (p.affine.getD cairoMatrixIdentity),
    fallback := none,
    x := some (p.x.getD lengthZeroHorizontal),
    y := some (p.y.getD lengthZeroHorizontal),
    width := some (p.width.getD lengthZeroHorizontal),
    height := some (p.height.getD lengthZeroHorizontal),
    c_node := p.c_node }

/-- Embeds `Pattern::resolve_from_fallback` (pattern.rs): each unset field —
including `fallback` itself — takes the fallback record's value; `c_node` is
replaced only when the current node has no children. -/
def Pattern.resolve_from_fallback (p : Pattern) (fb : Pattern) (hc : Nat → Bool) : Pattern :=
  { obj_bbox := p.obj_bbox.or fb.obj_bbox,
    obj_cbbox := p.obj_cbbox.or fb.obj_cbbox,
    vbox := p.vbox.or fb.vbox,
    preserve_aspect_ratio := p.preserve_aspect_ratio.or fb.preserve_aspect_ratio,
    affine := p.affine.or fb.affine,
    fallback := p.fallback.or fb.fallback,
    x := p.x.or fb.x,
    y := p.y.or fb.y,
    width := p.width.or fb.width,
    height := p.height.or fb.height,
    c_node := if hc p.c_node then p.c_node else fb.c_node }

/-- Embeds the `while !result.is_resolved()` loop of `resolve_pattern`
(pattern.rs), indexed by fuel: `none` means the loop has not exited within
`fuel` iterations (the source loop would still be running).  One iteration
looks up the current fallback name (`result.fallback.bind look` is the
source's "only query when a name is set"), merges on success, and on failure
applies defaults and breaks. -/
def resolveLoop (hc : Nat → Bool) (look : String → Option Pattern) :
    Nat → Pattern → Option Pattern
  | 0, _ => none
  | fuel + 1, result =>
    if result.is_resolved hc then some result
    else
      match result.fallback.bind look with
      | some fallback_pattern =>
        resolveLoop hc look fuel (result.resolve_from_fallback fallback_pattern hc)
      | none => some result.resolve_from_defaults

/-- Embeds `resolve_pattern` (pattern.rs): clone the input (the clone is the
identity in this value model) and run the loop. -/
def resolve_pattern (pattern : Pattern) (hc : Nat → Bool)
    (look : String → Option Pattern) (fuel : Nat) : Option Pattern :=
  resolveLoop hc look fuel pattern

/-- Helper: a pattern that is unresolved, finds a fallback, and is unchanged
by merging it, keeps the loop running forever: no amount of fuel makes the
loop exit. -/
theorem resolveLoop_fixpoint_none (hc : Nat → Bool) (look : String → Option Pattern)
    (r fb : Pattern) (hres : r.is_resolved hc = false)
    (hlook : r.fallback.bind look = some fb)
    (hfix : r.resolve_from_fallback fb hc = r) :
    ∀ fuel, resolveLoop hc look fuel r = none := by
  intro fuel
  induction fuel with
  | zero => rfl
  | succ n ih =>
    rw [resolveLoop, hres, hlook]
    simp only [Bool.false_eq_true, if_false, hfix]
    exact ih

/-- A pattern with no attribute set whose fallback name is `a` (node 0). -/
def cycPattern : Pattern :=
  { obj_bbox := none, obj_cbbox := none, vbox := none,
    preserve_aspect_ratio := none, affine := none, fallback := some "a",
    x := none, y := none, width := none, height := none, c_node := 0 }

/-- A lookup in which the name `a` resolves to `cycPattern` itself: a
self-referential fallback chain of length one. -/
def cycLookup : String → Option Pattern :=
  fun n => if n = "a" then some cycPattern else none

/-- A node environment in which no node has children. -/
def noChildren : Nat → Bool := fun _ => false

/-- Claim C2 (the code violates it): on the self-referential fallback chain
`a -> a`, `resolve_pattern` never terminates — for every iteration bound the
loop is still running — and no `CyclicFallbackError` exists anywhere in
pattern.rs; the visited-name tracking the spec requires is absent. -/
theorem c2_cycle_never_terminates :
    ∀ fuel, resolve_pattern cycPattern noChildren cycLookup fuel = none := by
  intro fuel
  exact resolveLoop_fixpoint_none noChildren cycLookup cycPattern cycPattern
    rfl rfl rfl fuel

/-- First record of a three-record fallback chain: everything unset, names
`b` (node 1, childless). -/
def chainP1 : Pattern :=
  { obj_bbox := none, obj_cbbox := none, vbox := none,
    preserve_aspect_ratio := none, affine := none, fallback := some "b",
    x := none, y := none, width := none, height := none, c_node := 1 }

/-- Second record of the chain: everything unset, names `c` (node 2,
childless). -/
def chainP2 : Pattern :=
  { obj_bbox := none, obj_cbbox := none, vbox := none,
    preserve_aspect_ratio := none, affine := none, fallback := some "c",
    x := none, y := none, width := none, height := none, c_node := 2 }

/-- Third and last record of the chain: fully populated, no fallback name,
node 3 (which has children). -/
def chainP3 : Pattern :=
  { obj_bbox := some true, obj_cbbox := some false,
    vbox := some rsvgViewBoxNewInactive,
    preserve_aspect_ratio := some aspectRatioDefault,
    affine := some cairoMatrixIdentity, fallback := none,
    x := some lengthZeroHorizontal, y := some lengthZeroHorizontal,
    width := some ⟨1, LengthUnit.Default, LengthDir.Horizontal⟩,
    height := some ⟨1, LengthUnit.Default, LengthDir.Horizontal⟩, c_node := 3 }

/-- Node environment of the chain: only node 3 (the last record's) has
children. -/
def chainChildren : Nat → Bool := fun n => n == 3

/-- Lookup of the chain: `b` yields the second record, `c` the third. -/
def chainLookup : String → Option Pattern :=
  fun n => if n = "b" then some chainP2 else if n = "c" then some chainP3 else none

/-- The state the working copy reaches after merging the second record once:
identical to the first record except that `c_node` became node 2.  Its
fallback name is still `b`, because `fallback` was already set and is
therefore not inherited. -/
def chainStuck : Pattern :=
  { obj_bbox := none, obj_cbbox := none, vbox := none,
    preserve_aspect_ratio := none, affine := none, fallback := some "b",
    x := none, y := none, width := none, height := none, c_node := 2 }

/-- Claim C1 (the code violates it): on the three-record chain
`chainP1 -> chainP2 -> chainP3`, resolution never reaches the third record
and never terminates — for every iteration bound the loop is still running.
After the first merge the working copy still carries fallback name `b`
(inherited only while unset, and it never is unset inside the loop), so the
loop re-fetches the second record forever instead of continuing to `c` and
producing the left-to-right merge of the chain. -/
theorem c1_chain_resolution_never_terminates :
    ∀ fuel, resolve_pattern chainP1 chainChildren chainLookup fuel = none := by
  intro fuel
  cases fuel with
  | zero => rfl
  | succ n =>
    have hstep : resolve_pattern chainP1 chainChildren chainLookup (n + 1) =
        resolveLoop chainChildren chainLookup n chainStuck := rfl
    rw [hstep]
    exact resolveLoop_fixpoint_none chainChildren chainLookup chainStuck chainP2
      rfl rfl rfl n

/-- A pattern with nothing set, no fallback name, and a childless node. -/
def emptyPattern : Pattern :=
  { obj_bbox := none, obj_cbbox := none, vbox := none,
    preserve_aspect_ratio := none, affine := none, fallback := none,
    x := none, y := none, width := none, height := none, c_node := 0 }

/-- A lookup that never finds anything. -/
def emptyLookup : String → Option Pattern := fun _ => none

/-- Claim C3 (the code violates it): resolving a pattern with no fallback
and a childless node terminates via the defaults path, yet the returned
record is not `is_resolved` — its node still has no children — so the
`assert!(pattern.is_resolved())` at the start of
`set_pattern_on_draw_context` fails on it. -/
theorem c3_resolved_record_fails_is_resolved :
    resolve_pattern emptyPattern noChildren emptyLookup 1 =
      some emptyPattern.resolve_from_defaults ∧
    (emptyPattern.resolve_from_defaults).is_resolved noChildren = false :=
  ⟨rfl, rfl⟩

/-- Truncation toward zero: the value of Rust's `f64 as i32` cast for
in-range values (out-of-range saturation and NaN are outside this model). -/
def ratTrunc (q : ℚ) : ℤ := if 0 ≤ q then ⌊q⌋ else ⌈q⌉

/-- Embeds the device tile width `pw` of `set_pattern_on_draw_context`
(pattern.rs, `(pattern_width * bbwscale * scwscale) as i32`), taking the
already-derived corrective scale factor as an input (the source computes it
from the combined transform's column norms just above). -/
def tileDeviceWidth (pattern_width bbwscale scwscale : ℚ) : ℤ :=
  ratTrunc (pattern_width * bbwscale * scwscale)

/-- Embeds the device tile height `ph` of `set_pattern_on_draw_context`
(pattern.rs, `(pattern_height * bbhscale * schscale) as i32`). -/
def tileDeviceHeight (pattern_height bbhscale schscale : ℚ) : ℤ :=
  ratTrunc (pattern_height * bbhscale * schscale)

/-- Counterexample for claim C4: at `pattern_width = 2.7`, unit bounding-box
and unit scale, the code computes tile width 2 while rounding to the nearest
integer device pixel would give 3. -/
theorem c4_tile_size_not_rounded_counterexample :
    tileDeviceWidth (27 / 10) 1 1 = 2 ∧ round ((27 / 10 : ℚ) * 1 * 1) = 3 := by
  constructor
  · have h : ((27 : ℚ) / 10 * 1 * 1) = 27 / 10 := by norm_num
    rw [tileDeviceWidth, h, ratTrunc, if_pos (by norm_num)]
    rw [Int.floor_eq_iff]
    norm_num
  · have h : ((27 : ℚ) / 10 * 1 * 1) = 27 / 10 := by norm_num
    rw [h, round_eq]
    rw [Int.floor_eq_iff]
    norm_num

/-- Characterization of truncation toward zero. -/
theorem ratTrunc_abs_le_and_close (q : ℚ) :
    |(ratTrunc q : ℚ)| ≤ |q| ∧ |q - (ratTrunc q : ℚ)| < 1 := by
  rcases le_or_lt 0 q with hq | hq
  · rw [ratTrunc, if_pos hq]
    have hfl : (0 : ℤ) ≤ ⌊q⌋ := Int.floor_nonneg.mpr hq
    have hle : ((⌊q⌋ : ℤ) : ℚ) ≤ q := Int.floor_le q
    constructor
    · rw [abs_of_nonneg (by exact_mod_cast hfl), abs_of_nonneg hq]
      exact hle
    · rw [abs_of_nonneg (by linarith)]
      have := Int.lt_floor_add_one q
      linarith
  · rw [ratTrunc, if_neg (not_le.mpr hq)]
    have hcz : ⌈q⌉ ≤ (0 : ℤ) := Int.ceil_le.mpr (by exact_mod_cast hq.le)
    have hcl : ((⌈q⌉ : ℤ) : ℚ) ≤ 0 := by exact_mod_cast hcz
    have hge : q ≤ ((⌈q⌉ : ℤ) : ℚ) := Int.le_ceil q
    constructor
    · rw [abs_of_nonpos hcl, abs_of_nonpos hq.le]
      linarith
    · rw [abs_of_nonpos (by linarith)]
      have := Int.ceil_lt_add_one q
      linarith

/-- Claim C4, amended: the device tile size is computed by casting the real
products to `i32`, which truncates toward zero — the result never exceeds the
pre-truncation product in magnitude and differs from it by less than one —
rather than rounding to the nearest integer device pixel. -/
theorem c4_tile_size_truncates_toward_zero (w bb scw h bbh sch : ℚ) :
    (|((tileDeviceWidth w bb scw : ℤ) : ℚ)| ≤ |w * bb * scw| ∧
      |w * bb * scw - ((tileDeviceWidth w bb scw : ℤ) : ℚ)| < 1) ∧
    (|((tileDeviceHeight h bbh sch : ℤ) : ℚ)| ≤ |h * bbh * sch| ∧
      |h * bbh * sch - ((tileDeviceHeight h bbh sch : ℤ) : ℚ)| < 1) :=
  ⟨ratTrunc_abs_le_and_close (w * bb * scw), ratTrunc_abs_le_and_close (h * bbh * sch)⟩

/-- Embeds `NodeFallbackSource` (pattern.rs): the vector of node handles
acquired during one resolution walk (`acquired`), plus an append-only audit
trace (`log`) of every successful `acquire_node` call, used to state the
release discipline.  Node handles are opaque numeric values. -/
structure FallbackState where
  acquired : List Nat
  log : List Nat
deriving DecidableEq, Repr

/-- The freshly constructed source (`NodeFallbackSource::new`): no handle
acquired yet. -/
def fallbackStateNew : FallbackState := ⟨[], []⟩

/-- Embeds `NodeFallbackSource::get_fallback` (pattern.rs): ask the drawing
context to acquire the named node (`acquire_node`, external); on success push
the handle onto the acquired vector *before* converting the node to a
pattern (`rsvg_pattern_node_to_rust_pattern`, external), so the handle stays
acquired even when the node is not a pattern. -/
def get_fallback (acquire_node : String → Option Nat)
    (node_to_pattern : Nat → Option Pattern)
    (st : FallbackState) (name : String) : Option Pattern × FallbackState :=
  match acquire_node name with
  | none => (none, st)
  | some fallback_node =>
    let st2 : FallbackState :=
      ⟨st.acquired ++ [fallback_node], st.log ++ [fallback_node]⟩
    match node_to_pattern fallback_node with
    | none => (none, st2)
    | some fallback_pattern => (some fallback_pattern, st2)

/-- The resolution loop of `resolve_pattern` threaded through the
`NodeFallbackSource` state, as `pattern_resolve_fallbacks_and_set_pattern`
runs it (pattern.rs): identical control flow to `resolveLoop`, with the
fallback query going through `get_fallback`. -/
def resolveLoopTracked (hc : Nat → Bool) (acquire_node : String → Option Nat)
    (node_to_pattern : Nat → Option Pattern) :
    Nat → Pattern → FallbackState → Option (Pattern × FallbackState)
  | 0, _, _ => none
  | fuel + 1, result, st =>
    if result.is_resolved hc then some (result, st)
    else
      match (match result.fallback with
             | some name => get_fallback acquire_node node_to_pattern st name
             | none => (none, st)) with
      | (some fallback_pattern, st2) =>
        resolveLoopTracked hc acquire_node node_to_pattern fuel
          (result.resolve_from_fallback fallback_pattern hc) st2
      | (none, st2) => some (result.resolve_from_defaults, st2)

/-- Pops the last element of a list, as `Vec::pop` does. -/
def popLast : List Nat → Option (Nat × List Nat)
  | [] => none
  | [x] => some (x, [])
  | x :: y :: xs =>
    match popLast (y :: xs) with
    | some (z, zs) => some (z, x :: zs)
    | none => none

/-- Length-bounded worker for the release loop. -/
def dropReleasesAux : Nat → List Nat → List Nat
  | 0, _ => []
  | n + 1, v =>
    match popLast v with
    | none => []
    | some (node, rest) => node :: dropReleasesAux n rest

/-- Embeds `Drop for NodeFallbackSource` (pattern.rs): the sequence of
`release_node` calls made by the `while let Some(node) = pop()` loop, in
order. -/
def dropReleases (v : List Nat) : List Nat := dropReleasesAux v.length v

/-- Popping a non-empty list yields its last element and the front. -/
theorem popLast_concat : ∀ (l : List Nat) (x : Nat), popLast (l ++ [x]) = some (x, l)
  | [], _ => rfl
  | [_], _ => rfl
  | a :: b :: bs, x => by
    have ih := popLast_concat (b :: bs) x
    rw [List.cons_append] at ih
    show (match popLast (b :: (bs ++ [x])) with
          | some (z, zs) => some (z, a :: zs)
          | none => none) = some (x, a :: b :: bs)
    rw [ih]

/-- The release loop emits exactly the reverse of the acquired vector. -/
theorem dropReleasesAux_eq_reverse :
    ∀ (n : Nat) (v : List Nat), v.length ≤ n → dropReleasesAux n v = v.reverse := by
  intro n
  induction n with
  | zero =>
    intro v hv
    rw [Nat.le_zero, List.length_eq_zero] at hv
    subst hv
    rfl
  | succ m ih =>
    intro v hv
    rcases v.eq_nil_or_concat with hnil | ⟨l, b, rfl⟩
    · subst hnil
      rfl
    · rw [List.concat_eq_append] at hv ⊢
      rw [dropReleasesAux, popLast_concat]
      have hlen : l.length ≤ m := by
        simp only [List.length_append, List.length_singleton] at hv
        omega
      show b :: dropReleasesAux m l = (l ++ [b]).reverse
      rw [ih l hlen]
      simp

/-- The release loop on any vector is its reverse. -/
theorem dropReleases_eq_reverse (v : List Nat) : dropReleases v = v.reverse :=
  dropReleasesAux_eq_reverse v.length v le_rfl

/-- During resolution the acquired vector is only appended to: whenever the
loop terminates, the vector equals the audit trace of successful
acquisitions. -/
theorem resolveLoopTracked_acquired_eq_log (hc : Nat → Bool)
    (acquire_node : String → Option Nat) (node_to_pattern : Nat → Option Pattern) :
    ∀ (fuel : Nat) (p r : Pattern) (st st2 : FallbackState),
      st.acquired = st.log →
      resolveLoopTracked hc acquire_node node_to_pattern fuel p st = some (r, st2) →
      st2.acquired = st2.log := by
  intro fuel
  induction fuel with
  | zero => intro p r st st2 _ h; exact absurd h (by simp [resolveLoopTracked])
  | succ n ih =>
    intro p r st st2 hinv h
    rw [resolveLoopTracked] at h
    by_cases hres : p.is_resolved hc = true
    · rw [if_pos hres] at h
      simp only [Option.some.injEq, Prod.mk.injEq] at h
      rw [← h.2]
      exact hinv
    · rw [if_neg hres] at h
      cases hp : p.fallback with
      | none =>
        rw [hp] at h
        simp only [Option.some.injEq, Prod.mk.injEq] at h
        rw [← h.2]
        exact hinv
      | some name =>
        rw [hp] at h
        cases hacq : acquire_node name with
        | none =>
          simp only [get_fallback, hacq] at h
          simp only [Option.some.injEq, Prod.mk.injEq] at h
          rw [← h.2]
          exact hinv
        | some node =>
          simp only [get_fallback, hacq] at h
          have hinv2 : (FallbackState.mk (st.acquired ++ [node]) (st.log ++ [node])).acquired =
              (FallbackState.mk (st.acquired ++ [node]) (st.log ++ [node])).log := by
            simp [hinv]
          cases hconv : node_to_pattern node with
          | none =>
            simp only [hconv] at h
            simp only [Option.some.injEq, Prod.mk.injEq] at h
            rw [← h.2]
            exact hinv2
          | some fbp =>
            simp only [hconv] at h
            exact ih _ r _ st2 hinv2 h

/-- Claim C9: whenever a resolution walk that started with no acquired
handles terminates (on any exit path — successful resolution or termination
on a missing fallback), the `Drop` release loop releases exactly the
handles successfully acquired through the fallback lookup, in reverse
acquisition order, and the multiset of released handles equals the multiset
of successful acquisitions. -/
theorem c9_release_discipline (hc : Nat → Bool)
    (acquire_node : String → Option Nat) (node_to_pattern : Nat → Option Pattern)
    (fuel : Nat) (p r : Pattern) (st : FallbackState)
    (h : resolveLoopTracked hc acquire_node node_to_pattern fuel p fallbackStateNew =
      some (r, st)) :
    dropReleases st.acquired = st.log.reverse ∧
    ((dropReleases st.acquired : List Nat) : Multiset Nat) =
      ((st.log : List Nat) : Multiset Nat) := by
  have hal : st.acquired = st.log :=
    resolveLoopTracked_acquired_eq_log hc acquire_node node_to_pattern fuel p r
      fallbackStateNew st rfl h
  constructor
  · rw [dropReleases_eq_reverse, hal]
  · rw [dropReleases_eq_reverse, hal]
    exact Multiset.coe_eq_coe.mpr (List.reverse_perm _)

/-- Acquisition environment for the witness run: name `b` resolves to node
handle 5. -/
def wAcquire : String → Option Nat := fun n => if n = "b" then some 5 else none

/-- Node-to-pattern conversion for the witness run: node 5 carries the fully
populated pattern record. -/
def wToPattern : Nat → Option Pattern := fun n => if n = 5 then some chainP3 else none

/-- The record the witness run resolves to: the first record merged once
with the full one (its fallback name survives because it was already set). -/
def wResolved : Pattern :=
  { obj_bbox := some true, obj_cbbox := some false,
    vbox := some rsvgViewBoxNewInactive,
    preserve_aspect_ratio := some aspectRatioDefault,
    affine := some cairoMatrixIdentity, fallback := some "b",
    x := some lengthZeroHorizontal, y := some lengthZeroHorizontal,
    width := some ⟨1, LengthUnit.Default, LengthDir.Horizontal⟩,
    height := some ⟨1, LengthUnit.Default, LengthDir.Horizontal⟩, c_node := 3 }

/-- Witness for claim C9: a concrete terminating run acquiring one handle
(node 5), whose release loop is its reverse and multiset-equal to it. -/
theorem c9_release_discipline_witness :
    dropReleases (FallbackState.mk [5] [5]).acquired =
      (FallbackState.mk [5] [5]).log.reverse ∧
    ((dropReleases (FallbackState.mk [5] [5]).acquired : List Nat) : Multiset Nat) =
      (((FallbackState.mk [5] [5]).log : List Nat) : Multiset Nat) :=
  c9_release_discipline chainChildren wAcquire wToPattern 2 chainP1 wResolved
    (FallbackState.mk [5] [5]) (by decide)
